import Mathlib

/-!
Shallow embedding of the imapfs core (src/imapfs/message.py,
src/imapfs/imapconnection.py, src/imapfs/fs.py).

Bytes are modelled as `Nat`, Python `int`s as `Int`, Python dicts as
insertion-ordered association lists, and the remote IMAP mailbox as a
list of messages.  Python exceptions are modelled with `Except PyExc`;
every remote round-trip is recorded in a `StoreEvent` trace.

The repository's `directory.py` and `file.py` are imported by `fs.py`
but are not part of the sources; the `Directory` and `File` definitions
below carry a doc comment marking them as modelled from the spec.
-/

namespace Imapfs

/-- Python exceptions the embedded code can raise. -/
inductive PyExc
  | ioError
  | runtimeError
  | unboundLocalError
  | indexError
  | attributeError
  | alreadyExists
deriving DecidableEq, Repr

/-- One remote IMAP interaction (a network round-trip to the store). -/
inductive StoreEvent
  | searchEv : String → StoreEvent
  | fetchEv : String → StoreEvent
  | appendEv : String → List Nat → StoreEvent
  | deleteEv : String → StoreEvent
deriving DecidableEq, Repr

/-- Python dict lookup: value of the entry with key `k`, if any. -/
def alGet? {β : Type} (d : List (String × β)) (k : String) : Option β :=
  (d.find? (fun e => e.1 == k)).map (fun e => e.2)

/-- Python dict assignment `d[k] = v`: update the existing entry in
place, otherwise append a new entry (dicts preserve insertion order). -/
def alSet {β : Type} (d : List (String × β)) (k : String) (v : β) : List (String × β) :=
  if d.any (fun e => e.1 == k) then
    d.map (fun e => if e.1 == k then (k, v) else e)
  else
    d ++ [(k, v)]

/-- Python dict `d.pop(k)` with the returned value ignored. -/
def alPop {β : Type} (d : List (String × β)) (k : String) : List (String × β) :=
  d.filter (fun e => !(e.1 == k))

/-- One message in the remote mailbox.  `deleted` models the IMAP
Deleted flag: flagged messages stay addressable by SEARCH and FETCH
until an expunge, and the source never expunges. -/
structure RemoteMsg where
  uid : String
  subject : String
  data : List Nat
  deleted : Bool
deriving DecidableEq, Repr

/-- State of `IMAPConnection` (src/imapfs/imapconnection.py): the remote
mailbox, the subject-to-UID cache, a counter standing in for the
server-assigned UIDs of appended messages, and whether the server
reports APPENDUID (which decides whether `put_message` can cache the
new UID). -/
structure IMAPConnection where
  remote : List RemoteMsg
  uid_cache : List (String × String)
  freshCtr : Nat
  appendUidSupported : Bool
deriving DecidableEq, Repr

/-- `IMAPConnection.search_by_subject`: UIDs of the mailbox messages
whose subject matches, in mailbox order; `none` when there is no hit. -/
def IMAPConnection.search_by_subject (c : IMAPConnection) (subject : String) :
    Option (List String) × List StoreEvent :=
  let uids := (c.remote.filter (fun r => r.subject == subject)).map (fun r => r.uid)
  (if uids.isEmpty then none else some uids, [StoreEvent.searchEv subject])

/-- `IMAPConnection.get_uid_by_subject`: answer from the cache when
possible (no remote interaction), else search by subject, cache and
return the last hit.  Note: a fruitless search does not purge anything
here. -/
def IMAPConnection.get_uid_by_subject (c : IMAPConnection) (subject : String) :
    Option String × IMAPConnection × List StoreEvent :=
  match alGet? c.uid_cache subject with
  | some uid => (some uid, c, [])
  | none =>
    let s := c.search_by_subject subject
    match s.1 with
    | none => (none, c, s.2)
    | some uids =>
      match uids.getLast? with
      | none => (none, c, s.2)
      | some uid =>
        (some uid, { c with uid_cache := alSet c.uid_cache subject uid }, s.2)

/-- Remove the first cache entry whose value is `uid` (the single pop
the source performs before the iterator blows up). -/
def removeFirstWithUid : List (String × String) → String → List (String × String)
  | [], _ => []
  | e :: rest, uid => if e.2 == uid then rest else e :: removeFirstWithUid rest uid

/-- `IMAPConnection.get_message`: fetch a message body by UID.  An empty
`uid` is falsy in Python and yields `none` without a fetch.  When the
fetch comes back empty the source pops uid-cache entries while
iterating over `.items()`; under Python 3 the iteration step after a
pop raises RuntimeError, so a stale cache entry for this UID makes the
call raise instead of returning `none` (the partial mutation of the
cache is kept, as in Python). -/
def IMAPConnection.get_message (c : IMAPConnection) (uid : String) :
    Except PyExc (Option (List Nat)) × IMAPConnection × List StoreEvent :=
  if uid == "" then (Except.ok none, c, [])
  else
    match (c.remote.find? (fun r => r.uid == uid)).map (fun r => r.data) with
    | none =>
      if c.uid_cache.any (fun e => e.2 == uid) then
        (Except.error PyExc.runtimeError,
         { c with uid_cache := removeFirstWithUid c.uid_cache uid },
         [StoreEvent.fetchEv uid])
      else
        (Except.ok none, c, [StoreEvent.fetchEv uid])
    | some data => (Except.ok (some data), c, [StoreEvent.fetchEv uid])

/-- `IMAPConnection.put_message`: purge the cache entry for `subject`,
append the data as a brand-new message (the fresh UID stands in for the
server-assigned one), and cache the new UID when the server reports
APPENDUID. -/
def IMAPConnection.put_message (c : IMAPConnection) (subject : String) (data : List Nat) :
    IMAPConnection × List StoreEvent :=
  let cache1 := alPop c.uid_cache subject
  let newUid := "u" ++ toString c.freshCtr
  let cache2 := if c.appendUidSupported then alSet cache1 subject newUid else cache1
  ({ c with remote := c.remote ++ [⟨newUid, subject, data, false⟩],
            uid_cache := cache2,
            freshCtr := c.freshCtr + 1 },
   [StoreEvent.appendEv subject data])

/-- `IMAPConnection.delete_message`: flag the message deleted and purge
every cache entry holding this UID (the source iterates over a `list()`
copy here, so this purge cannot raise). -/
def IMAPConnection.delete_message (c : IMAPConnection) (uid : String) :
    IMAPConnection × List StoreEvent :=
  ({ c with remote := c.remote.map (fun r => if r.uid == uid then { r with deleted := true } else r),
            uid_cache := c.uid_cache.filter (fun e => !(e.2 == uid)) },
   [StoreEvent.deleteEv uid])

/-- Python `os.SEEK_SET` / `os.SEEK_CUR` / `os.SEEK_END`. -/
inductive Whence
  | seekSet
  | seekCur
  | seekEnd
deriving DecidableEq, Repr

/-- `Message` (src/imapfs/message.py): the in-memory mirror of one named
remote object — raw bytes, cursor position and dirty flag. -/
structure Message where
  name : String
  data : List Nat
  dirty : Bool
  pos : Int
deriving DecidableEq, Repr

/-- Normalise one Python slice bound for a sequence of length `n`: a
negative bound counts from the end, then the bound is clamped into
`[0, n]`. -/
def sliceBound (n : Nat) (i : Int) : Nat :=
  if i < 0 then ((n : Int) + i).toNat else min i.toNat n

/-- Python slice `xs[a:b]`. -/
def pySlice {α : Type} (xs : List α) (a b : Int) : List α :=
  (xs.take (sliceBound xs.length b)).drop (sliceBound xs.length a)

/-- `Message.seek`: no bounds checking in any mode; note SEEK_END sets
`pos = len(data) - off`. -/
def Message.seek (m : Message) (off : Int) (whence : Whence) : Message :=
  match whence with
  | Whence.seekSet => { m with pos := off }
  | Whence.seekCur => { m with pos := m.pos + off }
  | Whence.seekEnd => { m with pos := (m.data.length : Int) - off }

/-- `Message.read`: with no size, return `data[pos:]` and advance the
cursor by its length; with a size, first set
`size = len(data) - pos` whenever `size + pos > len(data)`, then return
`data[pos:pos+size]` and advance the cursor by the (possibly negative)
clamped size. -/
def Message.read (m : Message) (size : Option Int) : List Nat × Message :=
  match size with
  | none =>
    let buf := pySlice m.data m.pos (m.data.length : Int)
    (buf, { m with pos := m.pos + (buf.length : Int) })
  | some s =>
    let s := if s + m.pos > (m.data.length : Int) then (m.data.length : Int) - m.pos else s
    let buf := pySlice m.data m.pos (m.pos + s)
    (buf, { m with pos := m.pos + s })

/-- `Message.truncate`: `None` is a no-op; shrinking keeps `data[:size]`
and clamps the cursor down to `size`; growing appends filler bytes
46 (the ASCII dot); both branches mark the message dirty. -/
def Message.truncate (m : Message) (size : Option Int) : Message :=
  match size with
  | none => m
  | some size =>
    if (m.data.length : Int) > size then
      { m with data := pySlice m.data 0 size,
               pos := if m.pos > size then size else m.pos,
               dirty := true }
    else
      { m with data := m.data ++ List.replicate (size - (m.data.length : Int)).toNat 46,
               dirty := true }

/-- `Message.flush` (src/imapfs/message.py:88): when dirty, look up the
current UID for this name, append the full buffer as a new message,
then delete the old UID when there was one; finally clear the dirty
flag.  When clean, do nothing at all. -/
def Message.flush (m : Message) (c : IMAPConnection) :
    Message × IMAPConnection × List StoreEvent :=
  if m.dirty then
    let l := c.get_uid_by_subject m.name
    let p := l.2.1.put_message m.name m.data
    match l.1 with
    | some oldUid =>
      let d := p.1.delete_message oldUid
      ({ m with dirty := false }, d.1, l.2.2 ++ p.2 ++ d.2)
    | none => ({ m with dirty := false }, p.1, l.2.2 ++ p.2)
  else (m, c, [])

/-- `Message.create`: fresh name (uuid4 in the source, modelled by the
connection's fresh counter), empty buffer, marked dirty. -/
def Message.create (c : IMAPConnection) : Message × IMAPConnection :=
  ({ name := "uuid-" ++ toString c.freshCtr, data := [], dirty := true, pos := 0 },
   { c with freshCtr := c.freshCtr + 1 })

/-- `Message.open` (named `openMessage` because `open` is a Lean
keyword): resolve the UID for `name` and fetch the body; a missing UID
or empty body raises IOError, and an exception out of `get_message`
propagates. -/
def Message.openMessage (c : IMAPConnection) (name : String) :
    Except PyExc Message × IMAPConnection × List StoreEvent :=
  let l := c.get_uid_by_subject name
  match l.1 with
  | none => (Except.error PyExc.ioError, l.2.1, l.2.2)
  | some uid =>
    let g := l.2.1.get_message uid
    match g.1 with
    | Except.error e => (Except.error e, g.2.1, l.2.2 ++ g.2.2)
    | Except.ok none => (Except.error PyExc.ioError, g.2.1, l.2.2 ++ g.2.2)
    | Except.ok (some data) =>
      (Except.ok { name := name, data := data, dirty := false, pos := 0 },
       g.2.1, l.2.2 ++ g.2.2)

/-- `Message.unlink`: resolve the UID for `name`; when absent this is a
no-op, otherwise delete that UID. -/
def Message.unlink (c : IMAPConnection) (name : String) :
    IMAPConnection × List StoreEvent :=
  let l := c.get_uid_by_subject name
  match l.1 with
  | none => (l.2.1, l.2.2)
  | some uid =>
    let d := l.2.1.delete_message uid
    (d.1, l.2.2 ++ d.2)

/-- Split a list on a separator, Python `str.split` style: `n`
separators yield `n + 1` (possibly empty) segments. -/
def splitSep {α : Type} [DecidableEq α] (sep : α) : List α → List (List α)
  | [] => [[]]
  | x :: xs =>
    let r := splitSep sep xs
    if x = sep then [] :: r
    else
      match r with
      | [] => [[x]]
      | y :: ys => (x :: y) :: ys

/-- Bytes of a string, one `Nat` per character. -/
def stringToNats (s : String) : List Nat :=
  s.toList.map Char.toNat

/-- String from a list of byte values. -/
def natsToString (l : List Nat) : String :=
  String.mk (l.map Char.ofNat)

/-- Modelled from the spec: the on-wire child list of a directory
(`directory.py` is not among the sources).  The spec fixes only that the
blob carries a mapping from child Name to display name after the tag
and marker; the concrete encoding here is one line per child,
`name TAB display NEWLINE`. -/
def encodeChildren (cs : List (String × String)) : List Nat :=
  cs.flatMap (fun e => stringToNats e.1 ++ [9] ++ stringToNats e.2 ++ [10])

/-- Modelled from the spec: inverse of `encodeChildren`. -/
def decodeChildren (bs : List Nat) : List (String × String) :=
  (splitSep 10 bs).filterMap (fun line =>
    match splitSep 9 line with
    | [n, d] => some (natsToString n, natsToString d)
    | _ => none)

/-- Directory content header: type tag 100 (the letter d) followed by
the two marker bytes 13 and 10 (carriage return, line feed), as checked
by `check_filesystem` in src/imapfs/fs.py. -/
def DIR_HEADER : List Nat := [100, 13, 10]

/-- Modelled from the spec: `directory.Directory` (`directory.py` is not
among the sources).  A Directory owns one Message whose content is the
tag, the marker and the encoded child list; the decoded child mapping
(child Name to display name) is kept in memory. -/
structure Directory where
  message : Message
  children : List (String × String)
deriving DecidableEq, Repr

/-- Modelled from the spec: `Directory.fromBlob` decodes the child-list
region of the blob (everything after the 3 header bytes). -/
def Directory.from_message (msg : Message) : Directory :=
  ⟨msg, decodeChildren (msg.data.drop 3)⟩

/-- Modelled from the spec: `Directory.create` allocates a new Name and
a dirty blob holding tag, marker and an empty child list. -/
def Directory.create (c : IMAPConnection) : Directory × IMAPConnection :=
  let mc := Message.create c
  (⟨{ mc.1 with data := DIR_HEADER ++ encodeChildren [] }, []⟩, mc.2)

/-- Modelled from the spec: `getChildByDisplayName`, returning the child
Name filed under a display name, if any. -/
def Directory.get_child_by_name (d : Directory) (display : String) : Option String :=
  (d.children.find? (fun e => e.2 == display)).map (fun e => e.1)

/-- Modelled from the spec: `addChild` fails with AlreadyExists when the
display name is taken, else inserts the link and marks the blob dirty. -/
def Directory.add_child (d : Directory) (childName display : String) :
    Except PyExc Directory :=
  if d.children.any (fun e => e.2 == display) then Except.error PyExc.alreadyExists
  else
    Except.ok { d with children := d.children ++ [(childName, display)],
                       message := { d.message with dirty := true } }

/-- Modelled from the spec: a Directory re-encodes its child mapping
into the blob before flushing the blob. -/
def Directory.flush (d : Directory) (c : IMAPConnection) :
    Directory × IMAPConnection × List StoreEvent :=
  let msg := { d.message with data := DIR_HEADER ++ encodeChildren d.children }
  let f := msg.flush c
  ({ d with message := f.1 }, f.2.1, f.2.2)

/-- Modelled from the spec: `file.File` (`file.py` is not among the
sources).  A File wraps one Message whose first byte is the tag 102
(the letter f) and exposes the remaining bytes as file content. -/
structure File where
  message : Message
deriving DecidableEq, Repr

/-- Modelled from the spec: `File.fromBlob`. -/
def File.from_message (msg : Message) : File :=
  ⟨msg⟩

/-- Modelled from the spec: `File.create` allocates a new Name and a
dirty blob holding the tag and an empty payload. -/
def File.create (c : IMAPConnection) : File × IMAPConnection :=
  let mc := Message.create c
  (⟨{ mc.1 with data := [102] }⟩, mc.2)

/-- Modelled from the spec: file size is the content length, the blob
length minus the 1-byte header. -/
def File.size (f : File) : Int :=
  (f.message.data.length : Int) - 1

/-- Modelled from the spec: byte-range operations are delegated to the
blob, offset by the 1-byte header; the dispatcher's absolute seek lands
on blob position `1 + off`. -/
def File.seek (f : File) (off : Int) : File :=
  ⟨f.message.seek (1 + off) Whence.seekSet⟩

/-- Modelled from the spec: `File.read` delegates to the blob's read. -/
def File.read (f : File) (size : Int) : List Nat × File :=
  let r := f.message.read (some size)
  (r.1, ⟨r.2⟩)

/-- A node is a tagged variant over File and Directory. -/
inductive Node
  | file : File → Node
  | dir : Directory → Node
deriving DecidableEq, Repr

/-- The Message backing a node. -/
def Node.message : Node → Message
  | Node.file f => f.message
  | Node.dir d => d.message

/-- The reserved root name: the all-zero UUID (`ROOT` in
src/imapfs/fs.py). -/
def ROOT : String := "00000000-0000-0000-0000-000000000000"

/-- Linux errno values used by the FUSE layer in src/imapfs/fs.py. -/
def ENOENT : Int := 2

/-- errno EEXIST. -/
def EEXIST : Int := 17

/-- errno EISDIR. -/
def EISDIR : Int := 21

/-- errno ENOTEMPTY. -/
def ENOTEMPTY : Int := 39

/-- State of the `IMAPFS` FUSE object (src/imapfs/fs.py): the
connection and the open-node cache keyed by node name. -/
structure IMAPFS where
  imap : IMAPConnection
  open_nodes : List (String × Node)
deriving DecidableEq, Repr

/-- `IMAPFS.open_node` (src/imapfs/fs.py:36): return the cached node if
present (no store access); else open the message — any exception there
is swallowed into `none` by the bare except — and dispatch on the first
content byte.  The tag dispatch sits outside the try block: an empty
body raises IndexError at `msg.data[0]`, and a tag other than 102 or
100 leaves the local `obj` unbound so that the cache-insert line raises
UnboundLocalError. -/
def IMAPFS.open_node (fs : IMAPFS) (name : String) :
    Except PyExc (Option Node) × IMAPFS × List StoreEvent :=
  match alGet? fs.open_nodes name with
  | some node => (Except.ok (some node), fs, [])
  | none =>
    let o := Message.openMessage fs.imap name
    let fs1 : IMAPFS := { fs with imap := o.2.1 }
    match o.1 with
    | Except.error _ => (Except.ok none, fs1, o.2.2)
    | Except.ok msg =>
      match msg.data.head? with
      | none => (Except.error PyExc.indexError, fs1, o.2.2)
      | some b =>
        if b = 102 then
          let node := Node.file (File.from_message msg)
          (Except.ok (some node),
           { fs1 with open_nodes := alSet fs1.open_nodes name node }, o.2.2)
        else if b = 100 then
          let node := Node.dir (Directory.from_message msg)
          (Except.ok (some node),
           { fs1 with open_nodes := alSet fs1.open_nodes name node }, o.2.2)
        else
          (Except.error PyExc.unboundLocalError, fs1, o.2.2)

/-- The per-segment loop of `get_node_by_path`: empty segments (from
doubled slashes) are skipped; when the current node is not a Directory
the loop breaks — returning the current node, be it a File or the
`none` of a missing root; a missing child yields `none`; otherwise the
child is opened and the walk continues. -/
def walkParts (fs : IMAPFS) (cur : Option Node) :
    List String → Except PyExc (Option Node) × IMAPFS
  | [] => (Except.ok cur, fs)
  | part :: rest =>
    if part = "" then walkParts fs cur rest
    else
      match cur with
      | some (Node.dir d) =>
        match d.get_child_by_name part with
        | none => (Except.ok none, fs)
        | some childKey =>
          let o := fs.open_node childKey
          match o.1 with
          | Except.error e => (Except.error e, o.2.1)
          | Except.ok none => (Except.ok none, o.2.1)
          | Except.ok (some child) => walkParts o.2.1 (some child) rest
      | _ => (Except.ok cur, fs)

/-- `IMAPFS.get_node_by_path` (src/imapfs/fs.py:97): `"/"` opens the
root directly; any other path is split on slashes and walked from the
root with `walkParts`. -/
def IMAPFS.get_node_by_path (fs : IMAPFS) (path : String) :
    Except PyExc (Option Node) × IMAPFS :=
  if path = "/" then
    let o := fs.open_node ROOT
    (o.1, o.2.1)
  else
    let parts := (splitSep '/' path.toList).map String.mk
    let o := fs.open_node ROOT
    match o.1 with
    | Except.error e => (Except.error e, o.2.1)
    | Except.ok cur => walkParts o.2.1 cur parts

/-- `get_path_parent` / `get_path_filename` helper: split a character
list around its last slash, if any. -/
def rpartSlash : List Char → Option (List Char × List Char)
  | [] => none
  | c :: rest =>
    match rpartSlash rest with
    | some p => some (c :: p.1, p.2)
    | none => if c = '/' then some ([], rest) else none

/-- `IMAPFS.get_path_parent`: everything before the last slash (empty
when there is no slash), as `path.rpartition` computes it. -/
def IMAPFS.get_path_parent (path : String) : String :=
  match rpartSlash path.toList with
  | some p => String.mk p.1
  | none => ""

/-- `IMAPFS.get_path_filename`: everything after the last slash (the
whole path when there is no slash). -/
def IMAPFS.get_path_filename (path : String) : String :=
  match rpartSlash path.toList with
  | some p => String.mk p.2
  | none => path

/-- `IMAPFS.check_filesystem` (src/imapfs/fs.py:72).  The docstring
promises True (present), False (present but not decryptable) and None
(no filesystem found); the result is therefore modelled as
`Option Bool`.  The body returns False both when the root is missing or
is not a Directory and when the three marker bytes mismatch, and True
otherwise — it never produces the documented None. -/
def IMAPFS.check_filesystem (fs : IMAPFS) :
    Except PyExc (Option Bool) × IMAPFS :=
  let o := fs.open_node ROOT
  match o.1 with
  | Except.error e => (Except.error e, o.2.1)
  | Except.ok root? =>
    match root? with
    | some (Node.dir d) =>
      if d.message.data.take 3 = DIR_HEADER then (Except.ok (some true), o.2.1)
      else (Except.ok (some false), o.2.1)
    | _ => (Except.ok (some false), o.2.1)

/-- `IMAPFS.mkdir` (src/imapfs/fs.py:174).  The result is the FUSE
return value: `some` of a negative errno on failure, `none` on
success.  Note both the occupied-path case and the missing-parent case
return `-EEXIST`.  On success a new Directory is created and cached,
linked into the parent under the leaf display name, the child is
flushed, then the parent. -/
def IMAPFS.mkdir (fs : IMAPFS) (path : String) :
    Except PyExc (Option Int) × IMAPFS :=
  let n := fs.get_node_by_path path
  match n.1 with
  | Except.error e => (Except.error e, n.2)
  | Except.ok (some _) => (Except.ok (some (-EEXIST)), n.2)
  | Except.ok none =>
    let p := n.2.get_node_by_path (IMAPFS.get_path_parent path)
    match p.1 with
    | Except.error e => (Except.error e, p.2)
    | Except.ok none => (Except.ok (some (-EEXIST)), p.2)
    | Except.ok (some (Node.file _)) => (Except.error PyExc.attributeError, p.2)
    | Except.ok (some (Node.dir parent)) =>
      let cc := Directory.create p.2.imap
      let child := cc.1
      let fs3 : IMAPFS :=
        { imap := cc.2,
          open_nodes := alSet p.2.open_nodes child.message.name (Node.dir child) }
      match parent.add_child child.message.name (IMAPFS.get_path_filename path) with
      | Except.error e => (Except.error e, fs3)
      | Except.ok parent1 =>
        let fs4 : IMAPFS :=
          { fs3 with open_nodes := alSet fs3.open_nodes parent1.message.name (Node.dir parent1) }
        let cf := child.flush fs4.imap
        let fs5 : IMAPFS :=
          { imap := cf.2.1,
            open_nodes := alSet fs4.open_nodes cf.1.message.name (Node.dir cf.1) }
        let pf := parent1.flush fs5.imap
        let fs6 : IMAPFS :=
          { imap := pf.2.1,
            open_nodes := alSet fs5.open_nodes pf.1.message.name (Node.dir pf.1) }
        (Except.ok none, fs6)

/-- `IMAPFS.read` (src/imapfs/fs.py:257): resolve the path; a missing
node yields `-ENOENT` and a Directory `-EISDIR`; otherwise seek the
file to `offset` and read `size` bytes, writing the moved node back to
the cache (the source mutates the shared node object in place). -/
def IMAPFS.read (fs : IMAPFS) (path : String) (size offset : Int) :
    Except PyExc (Except Int (List Nat)) × IMAPFS :=
  let n := fs.get_node_by_path path
  match n.1 with
  | Except.error e => (Except.error e, n.2)
  | Except.ok none => (Except.ok (Except.error (-ENOENT)), n.2)
  | Except.ok (some (Node.dir _)) => (Except.ok (Except.error (-EISDIR)), n.2)
  | Except.ok (some (Node.file f)) =>
    let r := (f.seek offset).read size
    (Except.ok (Except.ok r.1),
     { n.2 with open_nodes := alSet n.2.open_nodes r.2.message.name (Node.file r.2) })

/-! ### Helper lemmas about Python slices -/

theorem take_min_length {α : Type} (xs : List α) (n : Nat) :
    xs.take (min n xs.length) = xs.take n := by
  rcases Nat.le_total n xs.length with h | h
  · rw [Nat.min_eq_left h]
  · rw [Nat.min_eq_right h, List.take_length, List.take_of_length_le h]

theorem drop_min_of_le {α : Type} {xs : List α} {a n : Nat} (h : xs.length ≤ n) :
    xs.drop (min a n) = xs.drop a := by
  rcases Nat.le_total a n with h2 | h2
  · rw [Nat.min_eq_left h2]
  · rw [Nat.min_eq_right h2, List.drop_eq_nil_of_le h,
        List.drop_eq_nil_of_le (Nat.le_trans h h2)]

/-- A Python slice with non-negative bounds is a take followed by a
drop. -/
theorem pySlice_of_nonneg {α : Type} (xs : List α) (a b : Int)
    (ha : 0 ≤ a) (hb : 0 ≤ b) :
    pySlice xs a b = (xs.take b.toNat).drop a.toNat := by
  unfold pySlice sliceBound
  rw [if_neg (by omega), if_neg (by omega), take_min_length]
  exact drop_min_of_le (by simp [List.length_take])

/-! ### Concrete stores used by the counterexample and bug theorems -/

/-- A mailbox holding a root directory with one child, display name
a, backed by the file object named fileA (tag byte 102). -/
def c1fs : IMAPFS :=
  { imap := { remote := [⟨"1", ROOT, DIR_HEADER ++ encodeChildren [("fileA", "a")], false⟩,
                         ⟨"2", "fileA", [102], false⟩],
              uid_cache := [], freshCtr := 0, appendUidSupported := false },
    open_nodes := [] }

/-- An empty mailbox: no filesystem at all. -/
def c2fsAbsent : IMAPFS :=
  { imap := { remote := [], uid_cache := [], freshCtr := 0, appendUidSupported := false },
    open_nodes := [] }

/-- A mailbox whose root object has the directory tag but a wrong
marker (bytes 88 88 instead of 13 10): a corrupt filesystem. -/
def c2fsCorrupt : IMAPFS :=
  { imap := { remote := [⟨"1", ROOT, [100, 88, 88], false⟩],
              uid_cache := [], freshCtr := 0, appendUidSupported := false },
    open_nodes := [] }

/-- A mailbox with a well-formed empty root directory. -/
def c2fsPresent : IMAPFS :=
  { imap := { remote := [⟨"1", ROOT, DIR_HEADER, false⟩],
              uid_cache := [], freshCtr := 0, appendUidSupported := false },
    open_nodes := [] }

/-- A connection whose uid cache still maps nameN to UID 7 while the
mailbox no longer holds any message: a stale cache entry. -/
def c3connStale : IMAPConnection :=
  { remote := [], uid_cache := [("nameN", "7")], freshCtr := 0, appendUidSupported := false }

/-- The same empty mailbox with an empty cache. -/
def c3connClean : IMAPConnection :=
  { remote := [], uid_cache := [], freshCtr := 0, appendUidSupported := false }

/-- A mailbox holding only an empty root directory (so the path /a does
not exist). -/
def c4fs : IMAPFS :=
  { imap := { remote := [⟨"1", ROOT, DIR_HEADER, false⟩],
              uid_cache := [], freshCtr := 0, appendUidSupported := false },
    open_nodes := [] }

/-- A mailbox whose object nodeX has content tag 120 (the letter x),
neither 102 (f) nor 100 (d). -/
def c5fs : IMAPFS :=
  { imap := { remote := [⟨"1", "nodeX", [120], false⟩],
              uid_cache := [], freshCtr := 0, appendUidSupported := false },
    open_nodes := [] }

/-- A mailbox whose object nodeY is a well-formed empty file. -/
def c5good : IMAPFS :=
  { imap := { remote := [⟨"1", "nodeY", [102], false⟩],
              uid_cache := [], freshCtr := 0, appendUidSupported := false },
    open_nodes := [] }

/-! ### Claim theorems -/

/-- C1 (counterexample): in `c1fs` the non-final segment a of the path
/a/b resolves to the File node fileA, and `get_node_by_path` returns
that File node instead of failing with NotFound (`none`). -/
theorem C1_counterexample :
    (c1fs.get_node_by_path "/a/b").1
      = Except.ok (some (Node.file
          { message := { name := "fileA", data := [102], dirty := false, pos := 0 } })) := by
  rfl

/-- C1 (amended): when the walk of `get_node_by_path` reaches a
non-Directory (File) node with a non-empty segment still pending, it
stops and returns that File node rather than failing with NotFound;
empty segments are skipped; and the path / always resolves to the
result of opening the root name. -/
theorem C1_walk_stops_at_file (fs : IMAPFS) :
    (∀ (f : File) (part : String) (rest : List String), part ≠ "" →
      walkParts fs (some (Node.file f)) (part :: rest)
        = (Except.ok (some (Node.file f)), fs)) ∧
    (∀ (cur : Option Node) (rest : List String),
      walkParts fs cur ("" :: rest) = walkParts fs cur rest) ∧
    fs.get_node_by_path "/" = ((fs.open_node ROOT).1, (fs.open_node ROOT).2.1) := by
  refine ⟨?_, ?_, ?_⟩
  · intro f part rest h
    simp [walkParts, h]
  · intro cur rest
    simp [walkParts]
  · simp [IMAPFS.get_node_by_path]

/-- Witness for C1: the walk with the File node fileA under it and the
pending segment b returns that File node. -/
theorem C1_walk_stops_at_file_witness :
    walkParts c1fs
        (some (Node.file { message := { name := "fileA", data := [102], dirty := false, pos := 0 } }))
        ["b"]
      = (Except.ok (some (Node.file
          { message := { name := "fileA", data := [102], dirty := false, pos := 0 } })), c1fs) :=
  (C1_walk_stops_at_file c1fs).1 _ "b" [] (by decide)

/-- C2: `check_filesystem` on a store with no root object returns
`some false` — the same value (present but cannot be decrypted, that
is, Corrupt) it returns for a corrupt root — and never the documented
Absent result `none`; only a well-formed root yields `some true`. -/
theorem C2_check_filesystem_absent_collapses_to_corrupt :
    (c2fsAbsent.check_filesystem).1 = Except.ok (some false) ∧
    (c2fsCorrupt.check_filesystem).1 = Except.ok (some false) ∧
    (c2fsPresent.check_filesystem).1 = Except.ok (some true) := by
  refine ⟨rfl, rfl, rfl⟩

/-- C3: opening the name nameN, which has no current version while the
uid cache still holds a stale entry for it, raises RuntimeError out of
the cache-purge loop of `get_message` instead of reporting NotFound;
without the stale entry the same call cleanly reports NotFound
(IOError), and `unlink` of the missing name is a throw-free no-op in
both cases. -/
theorem C3_stale_cache_get_raises :
    (Message.openMessage c3connStale "nameN").1 = Except.error PyExc.runtimeError ∧
    (Message.openMessage c3connClean "nameN").1 = Except.error PyExc.ioError ∧
    Message.unlink c3connClean "nameN" = (c3connClean, [StoreEvent.searchEv "nameN"]) ∧
    Message.unlink c3connStale "nameN"
      = ({ c3connStale with uid_cache := [] }, [StoreEvent.deleteEv "7"]) := by
  refine ⟨rfl, rfl, rfl, rfl⟩

/-- C4: `mkdir` of /a/b while the parent /a does not exist returns
`-EEXIST` (AlreadyExists) instead of NotFound; `mkdir` of the occupied
path / also returns `-EEXIST`; `mkdir` of the fresh path /a under the
existing root succeeds. -/
theorem C4_mkdir_missing_parent_gives_eexist :
    (c4fs.mkdir "/a/b").1 = Except.ok (some (-EEXIST)) ∧
    (c4fs.mkdir "/").1 = Except.ok (some (-EEXIST)) ∧
    (c4fs.mkdir "/a").1 = Except.ok none := by
  refine ⟨rfl, rfl, rfl⟩

/-- C5: `open_node` of an object whose content tag is 120 (neither f
nor d) raises UnboundLocalError at the cache-insert line instead of
returning NotFound (`none`); a well-formed file opens, is cached and is
returned, and reopening it is answered from the cache with the very
same node, an unchanged state and no store interaction. -/
theorem C5_open_node_bad_tag_raises :
    (c5fs.open_node "nodeX").1 = Except.error PyExc.unboundLocalError ∧
    (c5good.open_node "nodeY").1
      = Except.ok (some (Node.file
          { message := { name := "nodeY", data := [102], dirty := false, pos := 0 } })) ∧
    ((c5good.open_node "nodeY").2.1.open_node "nodeY")
      = (Except.ok (some (Node.file
          { message := { name := "nodeY", data := [102], dirty := false, pos := 0 } })),
         (c5good.open_node "nodeY").2.1, []) := by
  refine ⟨rfl, rfl, rfl⟩

/-- C9: `seek` with SEEK_END sets the cursor to `len(data) - off`, the
opposite sign convention from POSIX `len(data) + off`, so a positive
offset moves the cursor backward from the end; the SEEK_SET and
SEEK_CUR formulas show no clamping either, and the cursor can land
below zero or past the end; seek never touches data or dirty. -/
theorem C9_seek_backward_from_end (m : Message) (off : Int) :
    (m.seek off Whence.seekEnd).pos = (m.data.length : Int) - off ∧
    (m.seek off Whence.seekSet).pos = off ∧
    (m.seek off Whence.seekCur).pos = m.pos + off ∧
    (∀ w : Whence, (m.seek off w).data = m.data ∧ (m.seek off w).dirty = m.dirty) ∧
    (off ≠ 0 → (m.seek off Whence.seekEnd).pos ≠ (m.data.length : Int) + off) ∧
    (0 < off → (m.seek off Whence.seekEnd).pos < (m.data.length : Int)) ∧
    (m.seek (-1) Whence.seekSet).pos < 0 ∧
    (m.data.length : Int) < (m.seek ((m.data.length : Int) + 1) Whence.seekSet).pos := by
  refine ⟨rfl, rfl, rfl, ?_, ?_, ?_, ?_, ?_⟩
  · intro w
    cases w <;> exact ⟨rfl, rfl⟩
  · intro h
    simp only [Message.seek]
    omega
  · intro h
    simp only [Message.seek]
    omega
  · simp [Message.seek]
  · simp [Message.seek]

/-- Message used by several witnesses: five bytes, cursor at 2. -/
def mWit : Message := { name := "w", data := [1, 2, 3, 4, 5], dirty := false, pos := 2 }

/-- Witness for C9 at offset 1. -/
theorem C9_seek_backward_from_end_witness :
    (1 : Int) ≠ 0 ∧
    (mWit.seek 1 Whence.seekEnd).pos ≠ (mWit.data.length : Int) + 1 :=
  ⟨by decide, (C9_seek_backward_from_end mWit 1).2.2.2.2.1 (by decide)⟩

/-- C10: reading with an explicit size while the cursor sits strictly
beyond the end of the data returns no bytes, moves the cursor backward
to exactly the data length, and leaves the data unchanged. -/
theorem C10_read_beyond_end (m : Message) (s : Int) (hs : 0 ≤ s)
    (hp : (m.data.length : Int) < m.pos) :
    (m.read (some s)).1 = [] ∧
    (m.read (some s)).2.pos = (m.data.length : Int) ∧
    (m.read (some s)).2.data = m.data := by
  have hc : s + m.pos > (m.data.length : Int) := by omega
  simp only [Message.read]
  rw [if_pos hc]
  have hb : m.pos + ((m.data.length : Int) - m.pos) = (m.data.length : Int) := by ring
  rw [hb]
  refine ⟨?_, by simp, by simp⟩
  rw [pySlice_of_nonneg _ _ _ (by omega) (by omega)]
  rw [Int.toNat_natCast, List.take_length]
  exact List.drop_eq_nil_of_le (by omega)

/-- Message with three bytes and the cursor stranded at 7. -/
def mWit10 : Message := { name := "w", data := [1, 2, 3], dirty := false, pos := 7 }

/-- Witness for C10 with a read of size 4 at cursor 7 over 3 bytes. -/
theorem C10_read_beyond_end_witness :
    ((0 : Int) ≤ 4 ∧ (mWit10.data.length : Int) < mWit10.pos) ∧
    (mWit10.read (some 4)).1 = [] ∧
    (mWit10.read (some 4)).2.pos = (mWit10.data.length : Int) :=
  ⟨⟨by decide, by decide⟩,
   (C10_read_beyond_end mWit10 4 (by decide) (by decide)).1,
   (C10_read_beyond_end mWit10 4 (by decide) (by decide)).2.1⟩

/-- C6: `flush` of a clean message touches neither the message nor the
connection and emits no store event — so the second of two flushes
without an intervening write always emits no event; `flush` of a dirty
message looks up the current UID, appends the full buffer under the
message's name, deletes the old UID exactly when one was found, and
clears the dirty flag. -/
theorem C6_flush_contract (m : Message) (c : IMAPConnection) :
    (m.dirty = false → m.flush c = (m, c, [])) ∧
    (m.dirty = true →
      (m.flush c).1 = { m with dirty := false } ∧
      (m.flush c).2.2 =
        (c.get_uid_by_subject m.name).2.2
          ++ [StoreEvent.appendEv m.name m.data]
          ++ (match (c.get_uid_by_subject m.name).1 with
              | some oldUid => [StoreEvent.deleteEv oldUid]
              | none => [])) ∧
    (m.flush c).1.flush (m.flush c).2.1 = ((m.flush c).1, (m.flush c).2.1, []) := by
  refine ⟨?_, ?_, ?_⟩
  · intro h
    simp [Message.flush, h]
  · intro h
    rcases hl : (c.get_uid_by_subject m.name).1 with _ | oldUid <;>
      simp [Message.flush, h, hl, IMAPConnection.put_message,
            IMAPConnection.delete_message]
  · by_cases h : m.dirty
    · rcases hl : (c.get_uid_by_subject m.name).1 with _ | oldUid <;>
        simp [Message.flush, h, hl]
    · simp [Message.flush, h]

/-- A dirty three-byte message and a clean copy of it. -/
def mWitDirty : Message := { name := "n", data := [1, 2, 3], dirty := true, pos := 0 }

/-- The clean copy. -/
def mWitClean : Message := { name := "n", data := [1, 2, 3], dirty := false, pos := 0 }

/-- A connection whose mailbox holds an old version of n under UID 5. -/
def cWit : IMAPConnection :=
  { remote := [⟨"5", "n", [9], false⟩], uid_cache := [], freshCtr := 0,
    appendUidSupported := true }

/-- Witness for C6: a clean flush does nothing, a dirty flush clears
the dirty flag. -/
theorem C6_flush_contract_witness :
    (mWitClean.dirty = false ∧ mWitClean.flush cWit = (mWitClean, cWit, [])) ∧
    (mWitDirty.dirty = true ∧ (mWitDirty.flush cWit).1 = { mWitDirty with dirty := false }) :=
  ⟨⟨rfl, (C6_flush_contract mWitClean cWit).1 rfl⟩,
   ⟨rfl, ((C6_flush_contract mWitDirty cWit).2.1 rfl).1⟩⟩

/-- C7: truncating a message of length L to M with 0 ≤ M < L keeps
exactly the first M bytes and clamps the cursor to at most M;
truncating to L + K appends exactly K filler bytes 46 after the
unchanged original bytes; both mark the message dirty; and the filler
byte 46 is printable and not zero. -/
theorem C7_truncate_contract (m : Message) :
    (∀ M : Int, 0 ≤ M → M < (m.data.length : Int) →
      (m.truncate (some M)).data = m.data.take M.toNat ∧
      (m.truncate (some M)).pos ≤ M ∧
      (m.truncate (some M)).dirty = true) ∧
    (∀ K : Nat,
      (m.truncate (some ((m.data.length : Int) + (K : Int)))).data
        = m.data ++ List.replicate K 46 ∧
      (m.truncate (some ((m.data.length : Int) + (K : Int)))).dirty = true) ∧
    ((46 : Nat) ≠ 0 ∧ 32 ≤ (46 : Nat) ∧ (46 : Nat) ≤ 126) := by
  refine ⟨?_, ?_, by decide⟩
  · intro M h0 hM
    simp only [Message.truncate]
    rw [if_pos (by omega)]
    refine ⟨?_, ?_, rfl⟩
    · show pySlice m.data 0 M = m.data.take M.toNat
      rw [pySlice_of_nonneg _ _ _ le_rfl h0]
      simp
    · show (if m.pos > M then M else m.pos) ≤ M
      split <;> omega
  · intro K
    simp only [Message.truncate]
    rw [if_neg (by omega)]
    have hK : ((m.data.length : Int) + (K : Int) - (m.data.length : Int)).toNat = K := by
      omega
    refine ⟨?_, rfl⟩
    show m.data ++ List.replicate _ 46 = m.data ++ List.replicate K 46
    rw [hK]

/-- Witness for C7: shrink to 2 and grow by 3 on a five-byte message
with the cursor at 2. -/
theorem C7_truncate_contract_witness :
    ((0 : Int) ≤ 2 ∧ (2 : Int) < (mWit.data.length : Int)) ∧
    (mWit.truncate (some 2)).data = mWit.data.take (2 : Int).toNat ∧
    (mWit.truncate (some ((mWit.data.length : Int) + ((3 : Nat) : Int)))).data
      = mWit.data ++ List.replicate 3 46 :=
  ⟨⟨by decide, by decide⟩,
   ((C7_truncate_contract mWit).1 2 (by decide) (by decide)).1,
   ((C7_truncate_contract mWit).2.1 3).1⟩

/-- C8: with the cursor at a non-negative position, `read` with no size
returns every byte from the cursor to the end; `read` with a
non-negative size returns the sized prefix of those bytes, clamped to
what is available, so an over-read returns fewer bytes instead of
erroring; and the dispatcher-level read (resolve, seek to the offset,
read) returns exactly the requested number of bytes whenever
`offset + size` does not pass the end of the file content. -/
theorem C8_read_clamps (m : Message) (hpos : 0 ≤ m.pos) :
    (m.read none).1 = m.data.drop m.pos.toNat ∧
    (∀ s : Int, 0 ≤ s →
      (m.read (some s)).1 = (m.data.drop m.pos.toNat).take s.toNat) ∧
    (∀ (fs : IMAPFS) (path : String) (f : File) (off sz : Int),
      (fs.get_node_by_path path).1 = Except.ok (some (Node.file f)) →
      0 ≤ off → 0 ≤ sz → off + sz ≤ f.size →
      ∃ bs, (fs.read path sz off).1 = Except.ok (Except.ok bs) ∧
        (bs.length : Int) = sz) := by
  refine ⟨?_, ?_, ?_⟩
  · simp only [Message.read]
    rw [pySlice_of_nonneg _ _ _ hpos (by omega)]
    rw [Int.toNat_natCast, List.take_length]
  · intro s hs
    simp only [Message.read]
    by_cases hc : s + m.pos > (m.data.length : Int)
    · rw [if_pos hc]
      have hb : m.pos + ((m.data.length : Int) - m.pos) = (m.data.length : Int) := by ring
      rw [hb, pySlice_of_nonneg _ _ _ hpos (by omega), Int.toNat_natCast, List.take_length]
      rw [List.take_of_length_le (by simp [List.length_drop]; omega)]
    · rw [if_neg hc]
      rw [pySlice_of_nonneg _ _ _ hpos (by omega), List.drop_take]
      congr 1
      omega
  · intro fs path f off sz hnode hoff hsz hend
    refine ⟨((f.seek off).read sz).1, ?_, ?_⟩
    · simp only [IMAPFS.read]
      rw [hnode]
    · simp only [File.seek, File.read, Message.seek, Message.read]
      have hlen : ¬ (sz + (1 + off) > ((f.message.data.length : Int))) := by
        simp only [File.size] at hend
        omega
      rw [if_neg hlen]
      rw [pySlice_of_nonneg _ _ _ (by omega) (by omega)]
      simp only [List.length_drop, List.length_take]
      simp only [File.size] at hend
      omega

/-- Witness for C8: over-read of 99 bytes at cursor 2 over five bytes,
and a dispatcher read of zero bytes at offset 0 of the file /a in
`c1fs`. -/
theorem C8_read_clamps_witness :
    ((0 : Int) ≤ mWit.pos ∧ (mWit.read none).1 = mWit.data.drop mWit.pos.toNat) ∧
    ((0 : Int) ≤ 99 ∧
      (mWit.read (some 99)).1 = (mWit.data.drop mWit.pos.toNat).take (99 : Int).toNat) ∧
    (∃ bs, (c1fs.read "/a" 0 0).1 = Except.ok (Except.ok bs) ∧ (bs.length : Int) = 0) :=
  ⟨⟨by decide, (C8_read_clamps mWit (by decide)).1⟩,
   ⟨by decide, (C8_read_clamps mWit (by decide)).2.1 99 (by decide)⟩,
   (C8_read_clamps mWit (by decide)).2.2 c1fs "/a"
     { message := { name := "fileA", data := [102], dirty := false, pos := 0 } } 0 0
     (by rfl) (by decide) (by decide) (by decide)⟩

end Imapfs
